import Mathlib

/-!
Verification of the Chatty backend scaffolding: the custom-error hierarchy
(`src/shared/globals/helpers/error-handler.ts`), the global error responder and
not-found fallback (`src/setupServer.ts`), the joi validation decorator
(`src/shared/globals/decorators/joi-validation.decorators.ts`) and the
configuration singleton (`config.ts`), shallowly embedded as executable Lean
definitions.
-/

namespace Chatty

/-- A small JSON value type, used for request bodies and HTTP response bodies. -/
inductive Json where
  | null : Json
  | bool : Bool → Json
  | num : Int → Json
  | str : String → Json
  | arr : List Json → Json
  | obj : List (String × Json) → Json

/- Constants from the `http-status-codes` npm package used by the source
(`HTTP_STATUS.BAD_REQUEST` etc.). -/
namespace HTTP_STATUS

def BAD_REQUEST : Nat := 400
def NOT_FOUND : Nat := 404
def UNAUTHORIZED : Nat := 401
def REQUEST_TOO_LONG : Nat := 413
def SERVICE_UNAVAILABLE : Nat := 503

end HTTP_STATUS

/-- `IError` from error-handler.ts: the serialized error shape
`{statusCode, message, status}`. -/
structure IError where
  statusCode : Nat
  message : String
  status : String
  deriving DecidableEq, Repr

/-- A runtime instance of a subclass of `CustomError`: the instance fields each
subclass initializes (`statusCode`, `status`) together with the `message` passed
to the `Error` super-constructor. -/
structure CustomErrorInst where
  statusCode : Nat
  status : String
  message : String
  deriving DecidableEq, Repr

/-- `CustomError.serializeErrors()`: returns
`{ message: this.message, status: this.status, statusCode: this.statusCode }`. -/
def serializeErrors (e : CustomErrorInst) : IError :=
  { message := e.message, status := e.status, statusCode := e.statusCode }

/-- `class JoinValidationError extends CustomError`:
`statusCode = HTTP_STATUS.BAD_REQUEST`, `status = 'error'`. -/
def JoinValidationError (message : String) : CustomErrorInst :=
  { statusCode := HTTP_STATUS.BAD_REQUEST, status := "error", message := message }

/-- `class BadRequestError extends CustomError`:
`statusCode = HTTP_STATUS.BAD_REQUEST`, `status = 'error'`. -/
def BadRequestError (message : String) : CustomErrorInst :=
  { statusCode := HTTP_STATUS.BAD_REQUEST, status := "error", message := message }

/-- `class NotFoundError extends CustomError`:
`statusCode = HTTP_STATUS.NOT_FOUND`, `status = 'error'`. -/
def NotFoundError (message : String) : CustomErrorInst :=
  { statusCode := HTTP_STATUS.NOT_FOUND, status := "error", message := message }

/-- `class NotAuthorizeError extends CustomError`:
`statusCode = HTTP_STATUS.UNAUTHORIZED`, `status = 'error'`. -/
def NotAuthorizeError (message : String) : CustomErrorInst :=
  { statusCode := HTTP_STATUS.UNAUTHORIZED, status := "error", message := message }

/-- `class FileToLargeError extends CustomError`:
`statusCode = HTTP_STATUS.REQUEST_TOO_LONG`, `status = 'error'`. -/
def FileToLargeError (message : String) : CustomErrorInst :=
  { statusCode := HTTP_STATUS.REQUEST_TOO_LONG, status := "error", message := message }

/-- `class ServerError extends CustomError`:
`statusCode = HTTP_STATUS.SERVICE_UNAVAILABLE`, `status = 'error'`. -/
def ServerError (message : String) : CustomErrorInst :=
  { statusCode := HTTP_STATUS.SERVICE_UNAVAILABLE, status := "error", message := message }

/-- The closed set of concrete `CustomError` subclasses defined in
error-handler.ts. -/
inductive ErrorKind where
  | joinValidationError
  | badRequestError
  | notFoundError
  | notAuthorizeError
  | fileToLargeError
  | serverError
  deriving DecidableEq, Repr

/-- Constructing an instance of the given subclass with the given message. -/
def ErrorKind.construct : ErrorKind → String → CustomErrorInst
  | .joinValidationError, m => JoinValidationError m
  | .badRequestError, m => BadRequestError m
  | .notFoundError, m => NotFoundError m
  | .notAuthorizeError, m => NotAuthorizeError m
  | .fileToLargeError, m => FileToLargeError m
  | .serverError, m => ServerError m

/-- JavaScript property lookup of a method on a `CustomError` instance: the
own properties are the data fields `statusCode`, `status`, `message`; the
prototype chain provides exactly the method `serializeErrors` (from
`CustomError.prototype`). Looking up any other method name yields undefined,
modelled as `none`. -/
def CustomErrorInst.lookupMethod (e : CustomErrorInst) (name : String) :
    Option (Unit → IError) :=
  if name = "serializeErrors" then some (fun _ => serializeErrors e) else none

/-- An error value flowing through the middleware chain: either an instance of
the `CustomError` hierarchy (so `error instanceof CustomError` is true) or any
other JavaScript error, carried with its name and message. -/
inductive JsError where
  | custom (e : CustomErrorInst)
  | other (name : String) (message : String)

/-- Rendering an `IError` as the JSON body sent by `res.json`. -/
def IError.toJson (e : IError) : Json :=
  Json.obj [("message", Json.str e.message), ("status", Json.str e.status),
    ("statusCode", Json.num e.statusCode)]

/-- What a middleware does with the request: write a response with a status
code and JSON body, call the `next` continuation, or itself throw an error. -/
inductive MiddlewareAction where
  | responded (statusCode : Nat) (body : Json)
  | calledNext
  | threw (e : JsError)

/-- Result of running the centralized error middleware: whether `log.error`
ran, and the action taken. -/
structure ErrorMiddlewareResult where
  logged : Bool
  action : MiddlewareAction

/-- The centralized error middleware of `globalErrorHandler` in setupServer.ts.
It logs the error; if `error instanceof CustomError` it evaluates
`res.status(error.statusCode).json(error.seralizeErrors())`, otherwise it calls
`next()`. The call `error.seralizeErrors()` is modelled by explicit property
lookup: if the instance provides a method under that exact name the method is
called and its result sent as the body; otherwise the property is undefined and
invoking it throws a TypeError before any response is written. -/
def globalErrorMiddleware (error : JsError) : ErrorMiddlewareResult :=
  { logged := true
    action :=
      match error with
      | .custom e =>
        match e.lookupMethod "seralizeErrors" with
        | some f => .responded e.statusCode (f ()).toJson
        | none => .threw (.other "TypeError" "error.seralizeErrors is not a function")
      | .other _ _ => .calledNext }

/-- A request as seen by the handlers: its parsed body and its original URL;
further request data is irrelevant to the embedded code. -/
structure JsRequest where
  body : Json
  originalUrl : String

/-- The catch-all route of `globalErrorHandler`:
`app.all` with pattern star sends status `HTTP_STATUS.NOT_FOUND` and the JSON
body whose message is `req.originalUrl` followed by " not found". -/
def notFoundFallback (req : JsRequest) : MiddlewareAction :=
  .responded HTTP_STATUS.NOT_FOUND
    (Json.obj [("message", Json.str (req.originalUrl ++ " not found"))])

/-- One entry of Joi's `error.details` array; the code reads its `message`. -/
structure JoiDetail where
  message : String
  deriving DecidableEq

/-- Joi's `ValidationError` as destructured by the decorator: only its
`details` array is consulted. -/
structure JoiError where
  details : List JoiDetail
  deriving DecidableEq

/-- The argument vector of a wrapped method: `args[0]` is the request (the
decorator is applied to Express handlers), the remaining arguments are opaque. -/
structure HandlerArgs where
  req : JsRequest
  rest : List Json

/-- Outcome of invoking a handler: a returned value or a thrown error. -/
inductive HandlerOutcome where
  | ok (value : Json)
  | thrown (e : JsError)

/-- The named exports of error-handler.ts that are error-class constructors.
Named imports resolve against these exact, case-sensitive names; any other
name resolves to no export. -/
def errorHandlerExports (name : String) : Option (String → CustomErrorInst) :=
  if name = "JoinValidationError" then some JoinValidationError
  else if name = "BadRequestError" then some BadRequestError
  else if name = "NotFoundError" then some NotFoundError
  else if name = "NotAuthorizeError" then some NotAuthorizeError
  else if name = "FileToLargeError" then some FileToLargeError
  else if name = "ServerError" then some ServerError
  else none

/-- The binding the decorator module imports from error-handler.ts under the
name joiRequestValidationError. error-handler.ts has no export of that name
(it exports JoinValidationError), so the binding is undefined. -/
def joiRequestValidationError : Option (String → CustomErrorInst) :=
  errorHandlerExports "joiRequestValidationError"

/-- JavaScript `new ctor(arg)` for a possibly-undefined binding: constructing
through an undefined binding throws a TypeError. -/
def jsNew (ctor : Option (String → CustomErrorInst)) (arg : String) : JsError :=
  match ctor with
  | some c => .custom (c arg)
  | none => .other "TypeError" "joiRequestValidationError is not a constructor"

/-- The wrapped method installed by `joiValidation(schema)` on the descriptor,
returning the outcome together with the list of argument vectors passed to the
original method (so "never invoked" and "invoked exactly once" are statable).
The schema is embedded as its validation function: `schema.validate(req.body)`
returns an optional Joi error. The test `error?.details` is truthy exactly when
an error was returned, because Joi's `details` is an array and arrays are
truthy; the branch then evaluates `new joiRequestValidationError` applied to
`error.details[0].message`. Indexing an empty `details` array yields undefined
and reading its `message` throws a TypeError before the construction; with a
non-empty `details` the argument evaluates to the first failure's message and
the new-expression constructs through the imported binding, which `jsNew`
resolves. When the test is falsy the original method is applied to the
unmodified arguments and its result returned. -/
def wrappedMethod (validate : Json → Option JoiError)
    (originalMethod : HandlerArgs → HandlerOutcome) (args : HandlerArgs) :
    HandlerOutcome × List HandlerArgs :=
  match validate args.req.body with
  | some error =>
    match error.details.head? with
    | some d => (.thrown (jsNew joiRequestValidationError d.message), [])
    | none =>
      (.thrown (.other "TypeError" "Cannot read properties of undefined"), [])
  | none => (originalMethod args, [args])

/-- A concrete schema for witnesses and counterexamples: it rejects every body
with the single failure "text is required". -/
def sampleValidate : Json → Option JoiError :=
  fun _ => some ⟨[⟨"text is required"⟩]⟩

/-- A concrete original method for witnesses and counterexamples. -/
def sampleMethod : HandlerArgs → HandlerOutcome :=
  fun _ => .ok .null

/-- A concrete argument vector: empty body, URL "/a", no extra arguments. -/
def sampleArgsA : HandlerArgs := ⟨⟨Json.obj [], "/a"⟩, []⟩

/-- A concrete argument vector with the same body as `sampleArgsA` but a
different URL and extra arguments. -/
def sampleArgsB : HandlerArgs := ⟨⟨Json.obj [], "/b"⟩, [Json.null]⟩

/-- The environment variables read by the Config constructor; each is a string
or undefined (`process.env` lookups). -/
structure ProcessEnv where
  DATABASE_URL : Option String
  jWT_TOKEN : Option String
  NODE_ENV : Option String
  SECRET_KEY_ONE : Option String
  SECRET_KEY_TWO : Option String
  CLIENT_URL : Option String
  REDIS_HOST : Option String
  CLOUD_NAME : Option String
  CLOUD_API_KEY : Option String
  CLOUD_API_SECRET : Option String

/-- JavaScript `a || b` applied to an environment value: undefined and the
empty string are falsy, so both fall back to the right operand. -/
def jsOr (v : Option String) (fallback : String) : String :=
  match v with
  | some s => if s = "" then fallback else s
  | none => fallback

/-- The Config object's own enumerable properties: the ten public fields
declared `string | undefined` and the initialized private default. -/
structure Config where
  DATABASE_URL : Option String
  jWT_TOKEN : Option String
  NODE_ENV : Option String
  SECRET_KEY_ONE : Option String
  SECRET_KEY_TWO : Option String
  CLIENT_URL : Option String
  REDIS_HOST : Option String
  CLOUD_NAME : Option String
  CLOUD_API_KEY : Option String
  CLOUD_API_SECRET : Option String
  DEFAULT_DATABASE_URL : Option String

/-- The Config constructor: each public field is the environment variable when
truthy, otherwise its fallback (the default database URL for DATABASE_URL,
"1234" for jWT_TOKEN, the empty string for the rest). -/
def Config.make (env : ProcessEnv) : Config :=
  { DATABASE_URL :=
      some (jsOr env.DATABASE_URL "mongodb://localhost:27017/chattyapp-backend")
    jWT_TOKEN := some (jsOr env.jWT_TOKEN "1234")
    NODE_ENV := some (jsOr env.NODE_ENV "")
    SECRET_KEY_ONE := some (jsOr env.SECRET_KEY_ONE "")
    SECRET_KEY_TWO := some (jsOr env.SECRET_KEY_TWO "")
    CLIENT_URL := some (jsOr env.CLIENT_URL "")
    REDIS_HOST := some (jsOr env.REDIS_HOST "")
    CLOUD_NAME := some (jsOr env.CLOUD_NAME "")
    CLOUD_API_KEY := some (jsOr env.CLOUD_API_KEY "")
    CLOUD_API_SECRET := some (jsOr env.CLOUD_API_SECRET "")
    DEFAULT_DATABASE_URL := some "mongodb://localhost:27017/chattyapp-backend" }

/-- `Object.entries(this)` on a Config instance: the own enumerable
key/value pairs, in declaration order. -/
def Config.entries (c : Config) : List (String × Option String) :=
  [("DATABASE_URL", c.DATABASE_URL), ("jWT_TOKEN", c.jWT_TOKEN),
    ("NODE_ENV", c.NODE_ENV), ("SECRET_KEY_ONE", c.SECRET_KEY_ONE),
    ("SECRET_KEY_TWO", c.SECRET_KEY_TWO), ("CLIENT_URL", c.CLIENT_URL),
    ("REDIS_HOST", c.REDIS_HOST), ("CLOUD_NAME", c.CLOUD_NAME),
    ("CLOUD_API_KEY", c.CLOUD_API_KEY), ("CLOUD_API_SECRET", c.CLOUD_API_SECRET),
    ("DEFAULT_DATABASE_URL", c.DEFAULT_DATABASE_URL)]

/-- The loop body of `validatedConfig`: for each entry, if the value is loosely
equal to undefined (here: absent), throw "Configuration KEY is undefined.". -/
def validateEntries : List (String × Option String) → Except String Unit
  | [] => Except.ok ()
  | (key, value) :: rest =>
    if value = none then
      Except.error ("Configuration " ++ key ++ " is undefined.")
    else validateEntries rest

/-- `Config.validatedConfig()`: iterates `Object.entries(this)` and throws on
the first undefined value. -/
def Config.validatedConfig (c : Config) : Except String Unit :=
  validateEntries c.entries

end Chatty

namespace Chatty

/-- C4: for each error kind, `serializeErrors` returns the constructor message
and the kind's fixed statusCode and status, where "fixed" means independent of
the message supplied at construction. -/
theorem serializeErrors_spec (k : ErrorKind) (m : String) :
    (serializeErrors (k.construct m)).message = m ∧
    (serializeErrors (k.construct m)).statusCode = (k.construct m).statusCode ∧
    (serializeErrors (k.construct m)).status = (k.construct m).status ∧
    (∀ m' : String, (k.construct m).statusCode = (k.construct m').statusCode ∧
      (k.construct m).status = (k.construct m').status) := by
  cases k <;> exact ⟨rfl, rfl, rfl, fun _ => ⟨rfl, rfl⟩⟩

/-- C6: the status codes fixed by each error class: JoinValidationError 400,
BadRequestError 400, NotFoundError 404, NotAuthorizeError 401,
FileToLargeError 413, ServerError 503, the same for every message. -/
theorem errorKind_statusCodes (m : String) :
    (JoinValidationError m).statusCode = 400 ∧
    (BadRequestError m).statusCode = 400 ∧
    (NotFoundError m).statusCode = 404 ∧
    (NotAuthorizeError m).statusCode = 401 ∧
    (FileToLargeError m).statusCode = 413 ∧
    (ServerError m).statusCode = 503 ∧
    (∀ k : ErrorKind, ∀ m' : String,
      (k.construct m).statusCode = (k.construct m').statusCode) := by
  refine ⟨rfl, rfl, rfl, rfl, rfl, rfl, fun k _ => ?_⟩
  cases k <;> rfl

/-- C8: every error kind carries the status label "error"; no instance of the
hierarchy ever serializes to a response with status "fail". -/
theorem errorKind_status_never_fail (k : ErrorKind) (m : String) :
    (serializeErrors (k.construct m)).status = "error" ∧
    (serializeErrors (k.construct m)).status ≠ "fail" := by
  have h1 : (serializeErrors (k.construct m)).status = "error" := by cases k <;> rfl
  exact ⟨h1, by rw [h1]; decide⟩

/-- C3 (failing part, at the failing input): on a recognized CustomError the
responder does not write the serialized response; the lookup of
`seralizeErrors` on the instance fails (the class defines `serializeErrors`),
so the middleware throws a TypeError after logging. -/
theorem globalErrorMiddleware_custom_crashes :
    (globalErrorMiddleware (.custom (NotFoundError "user not found"))).action =
      .threw (.other "TypeError" "error.seralizeErrors is not a function") ∧
    (globalErrorMiddleware (.custom (NotFoundError "user not found"))).logged = true ∧
    (globalErrorMiddleware (.other "Error" "boom")).action = .calledNext ∧
    (globalErrorMiddleware (.other "Error" "boom")).logged = true :=
  ⟨rfl, rfl, rfl, rfl⟩

/-- C5 (scenario, at the failing input): a NotFoundError("user not found")
reaching the responder does not produce the 404 response with body
statusCode 404, message "user not found", status "error"; the middleware throws
a TypeError instead. -/
theorem notFound_scenario_crashes :
    (globalErrorMiddleware (.custom (NotFoundError "user not found"))).action ≠
      .responded 404 (IError.toJson ⟨404, "user not found", "error"⟩) ∧
    (globalErrorMiddleware (.custom (NotFoundError "user not found"))).action =
      .threw (.other "TypeError" "error.seralizeErrors is not a function") :=
  ⟨fun h => by simp [globalErrorMiddleware, CustomErrorInst.lookupMethod] at h, rfl⟩

/-- C7: every request reaching the catch-all route receives status 404 with a
JSON body whose message is the requested URL followed by " not found", hence a
body containing the requested URL. -/
theorem notFoundFallback_spec (req : JsRequest) :
    notFoundFallback req =
      .responded 404
        (Json.obj [("message", Json.str (req.originalUrl ++ " not found"))]) ∧
    ∃ t, req.originalUrl ++ t = req.originalUrl ++ " not found" :=
  ⟨rfl, ⟨" not found", rfl⟩⟩

/-- C1 (at the failing branch): on a payload the schema rejects (an error with
a first failure), the original method is indeed never invoked, but the wrapped
method does not throw the validation error carrying the first failure's
message: the imported binding joiRequestValidationError matches no export of
error-handler.ts (which exports JoinValidationError), so it is undefined and
the new-expression throws a TypeError. -/
theorem joiValidation_invalid_typeError (validate : Json → Option JoiError)
    (originalMethod : HandlerArgs → HandlerOutcome) (args : HandlerArgs)
    (err : JoiError) (d : JoiDetail) (ds : List JoiDetail)
    (hv : validate args.req.body = some err) (hd : err.details = d :: ds) :
    (wrappedMethod validate originalMethod args).1 =
      .thrown (.other "TypeError" "joiRequestValidationError is not a constructor") ∧
    (wrappedMethod validate originalMethod args).1 ≠
      .thrown (.custom (JoinValidationError d.message)) ∧
    (wrappedMethod validate originalMethod args).2 = [] := by
  simp [wrappedMethod, hv, hd, jsNew, joiRequestValidationError, errorHandlerExports]

/-- Witness for C1 at a concrete schema, method and request. -/
theorem joiValidation_invalid_typeError_witness :
    (wrappedMethod sampleValidate sampleMethod sampleArgsA).1 =
      .thrown (.other "TypeError" "joiRequestValidationError is not a constructor") ∧
    (wrappedMethod sampleValidate sampleMethod sampleArgsA).1 ≠
      .thrown (.custom (JoinValidationError "text is required")) ∧
    (wrappedMethod sampleValidate sampleMethod sampleArgsA).2 = [] :=
  joiValidation_invalid_typeError sampleValidate sampleMethod sampleArgsA
    ⟨[⟨"text is required"⟩]⟩ ⟨"text is required"⟩ [] rfl rfl

/-- C2: on a payload the schema accepts (validation returns no error), the
wrapped method invokes the original method exactly once, with the unmodified
argument vector, and returns its result unchanged. -/
theorem joiValidation_valid (validate : Json → Option JoiError)
    (originalMethod : HandlerArgs → HandlerOutcome) (args : HandlerArgs)
    (hv : validate args.req.body = none) :
    (wrappedMethod validate originalMethod args).1 = originalMethod args ∧
    (wrappedMethod validate originalMethod args).2 = [args] := by
  simp [wrappedMethod, hv]

/-- Witness for C2 at a concrete schema, method and request. -/
theorem joiValidation_valid_witness :
    (wrappedMethod (fun _ => none) (fun a => .ok a.req.body)
        ⟨⟨Json.str "hi", "/chat"⟩, []⟩).1 = .ok (Json.str "hi") ∧
    (wrappedMethod (fun _ => none) (fun a => .ok a.req.body)
        ⟨⟨Json.str "hi", "/chat"⟩, []⟩).2 = [⟨⟨Json.str "hi", "/chat"⟩, []⟩] :=
  joiValidation_valid (fun _ => none) (fun a => .ok a.req.body)
    ⟨⟨Json.str "hi", "/chat"⟩, []⟩ rfl

/-- C10 counterexample: at a concrete schema whose rejections carry one
detail and two requests sharing a body, the claimed disjunction — both invoke
the original method, or both throw a validation error with the same message —
fails: neither invocation invokes the original method, and the thrown error is
a TypeError, not the validation error class. -/
theorem joiValidation_body_determines_cex :
    ¬ (((wrappedMethod sampleValidate sampleMethod sampleArgsA).2 = [sampleArgsA] ∧
        (wrappedMethod sampleValidate sampleMethod sampleArgsB).2 = [sampleArgsB]) ∨
      (∃ m, (wrappedMethod sampleValidate sampleMethod sampleArgsA).1 =
          .thrown (.custom (JoinValidationError m)) ∧
        (wrappedMethod sampleValidate sampleMethod sampleArgsB).1 =
          .thrown (.custom (JoinValidationError m)) ∧
        (wrappedMethod sampleValidate sampleMethod sampleArgsA).2 = [] ∧
        (wrappedMethod sampleValidate sampleMethod sampleArgsB).2 = [])) := by
  intro h
  rcases h with ⟨h1, _⟩ | ⟨m, h1, _, _, _⟩ <;>
    simp [wrappedMethod, sampleValidate, sampleMethod, sampleArgsA, jsNew,
      joiRequestValidationError, errorHandlerExports] at h1

/-- C10 amended: for a fixed schema, the outcome of the wrapped method depends
only on the request body: two invocations with equal bodies either both invoke
the original method (exactly once, with their own unmodified arguments) or
both throw the same error — on this code a TypeError from the undefined
validation-error constructor rather than a validation error — and the original
method is invoked in neither, whatever the other request data and arguments. -/
theorem joiValidation_body_determines_amended (validate : Json → Option JoiError)
    (originalMethod : HandlerArgs → HandlerOutcome) (a1 a2 : HandlerArgs)
    (hb : a1.req.body = a2.req.body) :
    ((wrappedMethod validate originalMethod a1).2 = [a1] ∧
      (wrappedMethod validate originalMethod a2).2 = [a2]) ∨
    (∃ e, (wrappedMethod validate originalMethod a1).1 = .thrown e ∧
      (wrappedMethod validate originalMethod a2).1 = .thrown e ∧
      (wrappedMethod validate originalMethod a1).2 = [] ∧
      (wrappedMethod validate originalMethod a2).2 = []) := by
  have hv2eq : validate a2.req.body = validate a1.req.body := by rw [hb]
  cases hv : validate a1.req.body with
  | none =>
    left
    exact ⟨by simp [wrappedMethod, hv], by simp [wrappedMethod, hv2eq.trans hv]⟩
  | some err =>
    right
    cases hd : err.details with
    | nil =>
      exact ⟨.other "TypeError" "Cannot read properties of undefined",
        by simp [wrappedMethod, hv, hd], by simp [wrappedMethod, hv2eq.trans hv, hd],
        by simp [wrappedMethod, hv, hd], by simp [wrappedMethod, hv2eq.trans hv, hd]⟩
    | cons d ds =>
      exact ⟨jsNew joiRequestValidationError d.message,
        by simp [wrappedMethod, hv, hd], by simp [wrappedMethod, hv2eq.trans hv, hd],
        by simp [wrappedMethod, hv, hd], by simp [wrappedMethod, hv2eq.trans hv, hd]⟩

/-- Witness for the amended C10 at a concrete schema and two requests sharing
a body but differing in URL and extra arguments. -/
theorem joiValidation_body_determines_amended_witness :
    ((wrappedMethod sampleValidate sampleMethod sampleArgsA).2 = [sampleArgsA] ∧
      (wrappedMethod sampleValidate sampleMethod sampleArgsB).2 = [sampleArgsB]) ∨
    (∃ e, (wrappedMethod sampleValidate sampleMethod sampleArgsA).1 = .thrown e ∧
      (wrappedMethod sampleValidate sampleMethod sampleArgsB).1 = .thrown e ∧
      (wrappedMethod sampleValidate sampleMethod sampleArgsA).2 = [] ∧
      (wrappedMethod sampleValidate sampleMethod sampleArgsB).2 = []) :=
  joiValidation_body_determines_amended sampleValidate sampleMethod
    sampleArgsA sampleArgsB rfl

/-- C9: whatever the environment, every own property of the constructed Config
object is a defined string, so validatedConfig reaches the end of its loop and
never throws. -/
theorem validatedConfig_never_throws (env : ProcessEnv) :
    (Config.make env).validatedConfig = Except.ok () := by
  simp [Config.validatedConfig, Config.make, Config.entries, validateEntries]

end Chatty
